import Mathlib

/-!
Verification of the birth-data resolution and chart-computation pipeline of
the Kaal-Chakra natal-chart bot.  The program under study is the bot module
that `src/App.py` materialises: `src/App.py` holds the whole bot program
inside the Python *raw* string literal `app_py = r''' ... '''`.  Because the
outer literal is raw, every doubled backslash visible in `src/App.py` lands
literally (two characters) in the generated program; this matters for
`parse_time`, whose regular expression therefore arrives as
`r"^(\\d{1,2}):(\\d{2})$"`, i.e. a pattern matching a literal backslash
followed by letters `d`.

Modelling conventions: Python floats are modelled as exact rationals,
Python strings as Lean `String`.  External providers (the geopy geocoder,
timezonefinder, the pytz zone-rules database, the flatlib ephemeris) are
parameters of the embedding; where a claim depends on a provider's
behaviour, the provider is modelled from the specification's contract for
it and the accompanying definition says so.
-/

/-- Python `str.strip()` restricted to ASCII whitespace (space, tab, CR,
LF), which is all the inputs in the claims exercise. -/
def pyStrip (s : String) : String :=
  ⟨((s.data.dropWhile Char.isWhitespace).reverse.dropWhile Char.isWhitespace).reverse⟩

/-- Python `str.lower()` restricted to ASCII letters, which is all the
inputs in the claims exercise. -/
def pyLower (s : String) : String :=
  ⟨s.data.map Char.toLower⟩

/-- Value of a list of decimal digits, most significant first. -/
def digitsToNat (l : List Char) : Nat :=
  l.foldl (fun a c => 10 * a + (c.toNat - 48)) 0

/-- Python `int(s)` on a string: after stripping, an optional sign followed
by at least one decimal digit; any other shape raises `ValueError`,
modelled as `none`. -/
def pyInt (s : String) : Option Int :=
  match (pyStrip s).data with
  | [] => none
  | '-' :: rest =>
      if rest ≠ [] ∧ rest.all Char.isDigit then some (-(digitsToNat rest : Int)) else none
  | '+' :: rest =>
      if rest ≠ [] ∧ rest.all Char.isDigit then some (digitsToNat rest : Int) else none
  | l =>
      if l.all Char.isDigit then some (digitsToNat l : Int) else none

/-- Language of the regular expression the generated program compiles for
`parse_time`.  The source text (App.py line 84, inside the raw outer
string) is `re.match(r"^(\\d{1,2}):(\\d{2})$", text.strip())`; the raw
string keeps both backslashes, so the regex is: literal backslash, one or
two literal letters `d`, a colon, a literal backslash, two literal letters
`d`.  Exactly two strings match; the result is (group 1, group 2). -/
def matchTimePattern (s : String) : Option (String × String) :=
  if s = "\\d:\\dd" then some ("\\d", "\\dd")
  else if s = "\\dd:\\dd" then some ("\\dd", "\\dd")
  else none

/-- Embedding of `parse_time` (App.py lines 83-90 of the embedded program):
match the (buggy) pattern against the stripped text; on no match return
`None`; on a match convert both groups with `int` (which raises
`ValueError`, the `Except.error` branch, whenever a group is not numeric)
and range-check hour and minute. -/
def parse_time (text : String) : Except String (Option (Int × Int)) :=
  match matchTimePattern (pyStrip text) with
  | none => .ok none
  | some (g1, g2) =>
    match pyInt g1 with
    | none => .error "ValueError"
    | some h =>
      match pyInt g2 with
      | none => .error "ValueError"
      | some mnt =>
        if 0 ≤ h ∧ h ≤ 23 ∧ 0 ≤ mnt ∧ mnt ≤ 59 then .ok (some (h, mnt)) else .ok none

/-- Calendar date as produced by `datetime.strptime` (only the fields the
program uses). -/
structure PyDate where
  year : Nat
  month : Nat
  day : Nat
deriving DecidableEq, Repr

/-- Split a character list at every occurrence of a separator. -/
def splitSep (sep : Char) : List Char → List (List Char)
  | [] => [[]]
  | c :: rest =>
      let r := splitSep sep rest
      if c = sep then [] :: r
      else
        match r with
        | [] => [[c]]
        | h :: t => (c :: h) :: t

/-- Language of CPython strptime's `%d` directive
(`3[01]|[12]\d|0[1-9]|[1-9]`): one or two decimal digits denoting 1-31. -/
def dayToken (l : List Char) : Option Nat :=
  if l.all Char.isDigit ∧ (l.length = 1 ∨ l.length = 2) ∧
      1 ≤ digitsToNat l ∧ digitsToNat l ≤ 31 then some (digitsToNat l) else none

/-- Language of CPython strptime's `%m` directive
(`1[0-2]|0[1-9]|[1-9]`): one or two decimal digits denoting 1-12. -/
def monthToken (l : List Char) : Option Nat :=
  if l.all Char.isDigit ∧ (l.length = 1 ∨ l.length = 2) ∧
      1 ≤ digitsToNat l ∧ digitsToNat l ≤ 12 then some (digitsToNat l) else none

/-- Language of CPython strptime's `%Y` directive (`\d\d\d\d`): exactly
four decimal digits. -/
def yearToken (l : List Char) : Option Nat :=
  if l.all Char.isDigit ∧ l.length = 4 then some (digitsToNat l) else none

/-- Gregorian leap-year rule, as used by Python's `datetime`. -/
def isLeapYear (y : Nat) : Bool :=
  y % 4 = 0 && (y % 100 != 0 || y % 400 = 0)

/-- Length of a month in Python's `datetime` calendar. -/
def daysInMonth (y m : Nat) : Nat :=
  if m = 2 then (if isLeapYear y then 29 else 28)
  else if m = 4 ∨ m = 6 ∨ m = 9 ∨ m = 11 then 30
  else 31

/-- CPython `datetime.strptime(s, "%d<sep>%m<sep>%Y")` where `<sep>` is `-`
or `/`: the whole string must split into a day token, a month token and a
four-digit year, and the `datetime` constructor then enforces calendar
validity (year at least `MINYEAR = 1`, day within the month). -/
def strptimeDMY (sep : Char) (s : String) : Option PyDate :=
  match splitSep sep s.data with
  | [d, m, y] =>
    match dayToken d, monthToken m, yearToken y with
    | some dv, some mv, some yv =>
        if 1 ≤ yv ∧ dv ≤ daysInMonth yv mv then some ⟨yv, mv, dv⟩ else none
    | _, _, _ => none
  | _ => none

/-- CPython `datetime.strptime(s, "%Y-%m-%d")`, with the same calendar
validation as `strptimeDMY`. -/
def strptimeYMD (s : String) : Option PyDate :=
  match splitSep '-' s.data with
  | [y, m, d] =>
    match yearToken y, monthToken m, dayToken d with
    | some yv, some mv, some dv =>
        if 1 ≤ yv ∧ dv ≤ daysInMonth yv mv then some ⟨yv, mv, dv⟩ else none
    | _, _, _ => none
  | _ => none

/-- Embedding of `parse_date` (App.py lines 75-81 of the embedded program):
try `%d-%m-%Y`, then `%d/%m/%Y`, then `%Y-%m-%d` on the stripped text; the
first successful parse wins; every `ValueError` (no match, or calendar
violation) falls through to the next format, and `None` is returned when
all three fail. -/
def parse_date (text : String) : Option PyDate :=
  (strptimeDMY '-' (pyStrip text)).orElse fun _ =>
  (strptimeDMY '/' (pyStrip text)).orElse fun _ =>
  strptimeYMD (pyStrip text)

/-- Python `int(x)` applied to a float modelled as a rational: truncation
toward zero. -/
def pyTrunc (q : ℚ) : Int :=
  if 0 ≤ q then ⌊q⌋ else ⌈q⌉

/-- Rendering of the Python format `{n:02d}`: decimal with zero-padding to
width two. -/
def pad2 (n : Int) : String :=
  if 0 ≤ n ∧ n < 10 then "0" ++ toString n else toString n

/-- Embedding of `fmt_deg` (App.py lines 112-115 of the embedded program):
`deg = int(d)`, `minutes = int((d - deg) * 60)`, rendered as
`{deg}°{minutes:02d}'`. -/
def fmt_deg (d : ℚ) : String :=
  let deg := pyTrunc d
  let minutes := pyTrunc ((d - deg) * 60)
  toString deg ++ "°" ++ pad2 minutes ++ "\x27"

theorem matchTimePattern_cases {s g1 g2 : String}
    (h : matchTimePattern s = some (g1, g2)) :
    (g1 = "\\d" ∧ g2 = "\\dd") ∨ (g1 = "\\dd" ∧ g2 = "\\dd") := by
  unfold matchTimePattern at h
  split at h
  · exact Or.inl (by cases h; exact ⟨rfl, rfl⟩)
  · split at h
    · exact Or.inr (by cases h; exact ⟨rfl, rfl⟩)
    · cases h

theorem pyInt_backslash_d : pyInt "\\d" = none := by decide

theorem pyInt_backslash_dd : pyInt "\\dd" = none := by decide

/-- C3: in the program that `src/App.py` generates, `parse_time` can never
return an (hour, minute) pair for any input: the outer raw string doubles
the backslashes of its regex, so the compiled pattern demands a literal
backslash followed by letters `d` instead of digits, and the two strings
that do match make `int()` raise.  In particular `parse_time "14:35"`
yields `None`, contradicting the claimed `(14, 35)` and the bot's own
prompt `e.g., 14:35`. -/
theorem parse_time_never_returns_a_time :
    parse_time "14:35" = .ok none ∧
    ∀ s h m, parse_time s ≠ Except.ok (some (h, m)) := by
  refine ⟨by rfl, ?_⟩
  intro s h m hcontra
  unfold parse_time at hcontra
  rcases hm : matchTimePattern (pyStrip s) with _ | ⟨g1, g2⟩
  · rw [hm] at hcontra; exact Option.noConfusion (Except.ok.inj hcontra)
  · rw [hm] at hcontra
    rcases matchTimePattern_cases hm with ⟨h1, h2⟩ | ⟨h1, h2⟩ <;> subst h1 <;> subst h2
    · simp only [pyInt_backslash_d] at hcontra
      exact Except.noConfusion hcontra
    · simp only [pyInt_backslash_dd] at hcontra
      exact Except.noConfusion hcontra

/-- Second conjunct of the C3 theorem applied at the spec's concrete
example input. -/
theorem parse_time_never_returns_a_time_witness :
    parse_time "14:35" ≠ Except.ok (some (14, 35)) :=
  parse_time_never_returns_a_time.2 "14:35" 14 35

theorem dayToken_bounds {l : List Char} {dv : Nat} (h : dayToken l = some dv) :
    1 ≤ dv ∧ dv ≤ 31 := by
  unfold dayToken at h
  split at h
  · cases h; omega
  · cases h

theorem monthToken_bounds {l : List Char} {mv : Nat} (h : monthToken l = some mv) :
    1 ≤ mv ∧ mv ≤ 12 := by
  unfold monthToken at h
  split at h
  · cases h; omega
  · cases h

theorem strptimeDMY_valid {sep : Char} {s : String} {dt : PyDate}
    (h : strptimeDMY sep s = some dt) :
    1 ≤ dt.year ∧ 1 ≤ dt.month ∧ dt.month ≤ 12 ∧ 1 ≤ dt.day ∧
      dt.day ≤ daysInMonth dt.year dt.month := by
  unfold strptimeDMY at h
  split at h
  · rename_i a b c heq
    rcases hd : dayToken a with _ | dv <;> rcases hm : monthToken b with _ | mv <;>
      rcases hy : yearToken c with _ | yv <;> simp only [hd, hm, hy] at h <;>
      try exact Option.noConfusion h
    split at h
    · cases h
      obtain ⟨hd1, hd2⟩ := dayToken_bounds hd
      obtain ⟨hm1, hm2⟩ := monthToken_bounds hm
      simp_all
    · cases h
  · cases h

theorem strptimeYMD_valid {s : String} {dt : PyDate}
    (h : strptimeYMD s = some dt) :
    1 ≤ dt.year ∧ 1 ≤ dt.month ∧ dt.month ≤ 12 ∧ 1 ≤ dt.day ∧
      dt.day ≤ daysInMonth dt.year dt.month := by
  unfold strptimeYMD at h
  split at h
  · rename_i a b c heq
    rcases hy : yearToken a with _ | yv <;> rcases hm : monthToken b with _ | mv <;>
      rcases hd : dayToken c with _ | dv <;> simp only [hy, hm, hd] at h <;>
      try exact Option.noConfusion h
    split at h
    · cases h
      obtain ⟨hd1, hd2⟩ := dayToken_bounds hd
      obtain ⟨hm1, hm2⟩ := monthToken_bounds hm
      simp_all
    · cases h
  · cases h

/-- C4: `parse_date` accepts exactly the three formats `%d-%m-%Y`,
`%d/%m/%Y`, `%Y-%m-%d`, tried in that order with the first successful parse
winning; every successful parse is calendrically valid; and the spec's
examples behave as stated (the three spellings of 7 September 1998 agree,
`31-04-1998` and `notadate` yield `None`). -/
theorem parse_date_three_formats :
    (∀ s dt, parse_date s = some dt ↔
       (strptimeDMY '-' (pyStrip s) = some dt ∨
        (strptimeDMY '-' (pyStrip s) = none ∧ strptimeDMY '/' (pyStrip s) = some dt) ∨
        (strptimeDMY '-' (pyStrip s) = none ∧ strptimeDMY '/' (pyStrip s) = none ∧
         strptimeYMD (pyStrip s) = some dt))) ∧
    (∀ s dt, parse_date s = some dt →
       1 ≤ dt.year ∧ 1 ≤ dt.month ∧ dt.month ≤ 12 ∧ 1 ≤ dt.day ∧
         dt.day ≤ daysInMonth dt.year dt.month) ∧
    parse_date "07-09-1998" = some ⟨1998, 9, 7⟩ ∧
    parse_date "07/09/1998" = some ⟨1998, 9, 7⟩ ∧
    parse_date "1998-09-07" = some ⟨1998, 9, 7⟩ ∧
    parse_date "31-04-1998" = none ∧
    parse_date "notadate" = none := by
  have hiff : ∀ s dt, parse_date s = some dt ↔
       (strptimeDMY '-' (pyStrip s) = some dt ∨
        (strptimeDMY '-' (pyStrip s) = none ∧ strptimeDMY '/' (pyStrip s) = some dt) ∨
        (strptimeDMY '-' (pyStrip s) = none ∧ strptimeDMY '/' (pyStrip s) = none ∧
         strptimeYMD (pyStrip s) = some dt)) := by
    intro s dt
    unfold parse_date
    rcases h1 : strptimeDMY '-' (pyStrip s) with _ | d1 <;>
      rcases h2 : strptimeDMY '/' (pyStrip s) with _ | d2 <;>
      simp [Option.orElse]
  refine ⟨hiff, ?_, by decide, by decide, by decide, by decide, by decide⟩
  intro s dt h
  rcases (hiff s dt).mp h with h' | ⟨_, h'⟩ | ⟨_, _, h'⟩
  · exact strptimeDMY_valid h'
  · exact strptimeDMY_valid h'
  · exact strptimeYMD_valid h'

/-- First and second conjuncts of the C4 theorem applied at the concrete
input `07-09-1998`. -/
theorem parse_date_three_formats_witness :
    (parse_date "07-09-1998" = some ⟨1998, 9, 7⟩ ↔
       (strptimeDMY '-' (pyStrip "07-09-1998") = some ⟨1998, 9, 7⟩ ∨
        (strptimeDMY '-' (pyStrip "07-09-1998") = none ∧
         strptimeDMY '/' (pyStrip "07-09-1998") = some ⟨1998, 9, 7⟩) ∨
        (strptimeDMY '-' (pyStrip "07-09-1998") = none ∧
         strptimeDMY '/' (pyStrip "07-09-1998") = none ∧
         strptimeYMD (pyStrip "07-09-1998") = some ⟨1998, 9, 7⟩))) ∧
    (1 ≤ (PyDate.mk 1998 9 7).year ∧ 1 ≤ (PyDate.mk 1998 9 7).month ∧
     (PyDate.mk 1998 9 7).month ≤ 12 ∧ 1 ≤ (PyDate.mk 1998 9 7).day ∧
     (PyDate.mk 1998 9 7).day ≤ daysInMonth (PyDate.mk 1998 9 7).year (PyDate.mk 1998 9 7).month) :=
  ⟨parse_date_three_formats.1 "07-09-1998" ⟨1998, 9, 7⟩,
   parse_date_three_formats.2.1 "07-09-1998" ⟨1998, 9, 7⟩ (by decide)⟩

theorem pyTrunc_nonneg {q : ℚ} (h : 0 ≤ q) : pyTrunc q = ⌊q⌋ := if_pos h

theorem pad2_len {n : Int} (h1 : 0 ≤ n) (h2 : n < 60) : (pad2 n).length = 2 := by
  interval_cases n <;> decide

/-- C7: for a longitude-within-sign `d` in `[0, 30)`, `fmt_deg` truncates
the integer-degree part (for nonnegative `d`, `int()` is the floor), takes
minutes as the floor of the fractional degree times 60, a value in
`[0, 60)` whose zero-padded rendering is exactly two characters, and the
spec's example `5.999999` renders as `5°59'` rather than `6°00'`. -/
theorem fmt_deg_truncates (d : ℚ) (h0 : 0 ≤ d) (h30 : d < 30) :
    fmt_deg d = toString ⌊d⌋ ++ "°" ++ pad2 ⌊(d - ⌊d⌋) * 60⌋ ++ "\x27" ∧
    0 ≤ ⌊(d - ⌊d⌋) * 60⌋ ∧ ⌊(d - ⌊d⌋) * 60⌋ < 60 ∧
    (pad2 ⌊(d - ⌊d⌋) * 60⌋).length = 2 ∧
    fmt_deg (5.999999 : ℚ) = "5°59\x27" := by
  have hfnn : (0:ℚ) ≤ d - ⌊d⌋ := by
    have := Int.fract_nonneg d
    unfold Int.fract at this
    linarith
  have hflt : d - ⌊d⌋ < 1 := by
    have := Int.fract_lt_one d
    unfold Int.fract at this
    linarith
  have h2 : (0:ℚ) ≤ (d - ⌊d⌋) * 60 := by positivity
  have hm0 : 0 ≤ ⌊(d - ⌊d⌋) * 60⌋ := Int.floor_nonneg.mpr h2
  have hm60 : ⌊(d - ⌊d⌋) * 60⌋ < 60 := by
    refine Int.floor_lt.mpr ?_
    push_cast
    nlinarith
  refine ⟨?_, hm0, hm60, pad2_len hm0 hm60, ?_⟩
  · simp only [fmt_deg]
    rw [pyTrunc_nonneg h0, pyTrunc_nonneg h2]
  · have e1 : pyTrunc (5.999999 : ℚ) = 5 := by
      unfold pyTrunc
      rw [if_pos (by norm_num)]
      norm_num [Int.floor_eq_iff]
    have e2 : pyTrunc (((5.999999 : ℚ) - ((5:Int):ℚ)) * 60) = 59 := by
      unfold pyTrunc
      rw [if_pos (by norm_num)]
      norm_num [Int.floor_eq_iff]
    simp only [fmt_deg, e1, e2]
    decide

/-- C7 theorem applied at the spec's concrete input `5.999999`. -/
theorem fmt_deg_truncates_witness :
    fmt_deg (5.999999 : ℚ) =
      toString ⌊(5.999999 : ℚ)⌋ ++ "°" ++
        pad2 ⌊((5.999999 : ℚ) - ⌊(5.999999 : ℚ)⌋) * 60⌋ ++ "\x27" ∧
    0 ≤ ⌊((5.999999 : ℚ) - ⌊(5.999999 : ℚ)⌋) * 60⌋ ∧
    ⌊((5.999999 : ℚ) - ⌊(5.999999 : ℚ)⌋) * 60⌋ < 60 ∧
    (pad2 ⌊((5.999999 : ℚ) - ⌊(5.999999 : ℚ)⌋) * 60⌋).length = 2 ∧
    fmt_deg (5.999999 : ℚ) = "5°59\x27" :=
  fmt_deg_truncates 5.999999 (by norm_num) (by norm_num)

/-- Python `sep.join(parts)`. -/
def joinSep (sep : String) : List String → String
  | [] => ""
  | [a] => a
  | a :: rest => a ++ sep ++ joinSep sep rest

/-- Embedding of the aspects-block construction in `on_confirm` (App.py
line 221 of the embedded program): `aspects_block = "\n".join(aspects_list)
if aspects_list else "_No major aspects within 6° orb_."`.  In the
generated program the joining separator literal is `"\\n"`, i.e. the
two-character sequence backslash-`n` (the outer raw string doubles the
backslash), and the placeholder literal carries Markdown italics
underscores and a trailing period. -/
def aspects_block (aspects_list : List String) : String :=
  if aspects_list ≠ [] then joinSep "\\n" aspects_list
  else "_No major aspects within 6° orb_."

/-- C9 counterexample: on an empty aspect sequence the formatter does not
emit the bare string the claim names; the emitted literal carries Markdown
italics underscores and a trailing period. -/
theorem aspects_block_not_bare_placeholder :
    aspects_block [] ≠ "No major aspects within 6° orb" := by decide

/-- C9 (amended): when the aspect sequence is empty the formatter emits
the fixed nonempty placeholder literal `_No major aspects within 6° orb_.`
instead of an empty block, and on a nonempty sequence it joins the aspect
lines instead. -/
theorem aspects_block_placeholder :
    aspects_block [] = "_No major aspects within 6° orb_." ∧
    "_No major aspects within 6° orb_." ≠ "" ∧
    ∀ l, l ≠ [] → aspects_block l = joinSep "\\n" l := by
  refine ⟨by decide, by decide, ?_⟩
  intro l hl
  unfold aspects_block
  rw [if_pos hl]

/-- Third conjunct of the C9 theorem applied at a concrete one-line
aspect list. -/
theorem aspects_block_placeholder_witness :
    aspects_block ["line"] = joinSep "\\n" ["line"] :=
  aspects_block_placeholder.2.2 ["line"] (by decide)

/-- The ten celestial bodies in the fixed order of `PLANETS` (App.py lines
60-63); flatlib's `const.SUN .. const.PLUTO` are these strings. -/
def PLANETS : List String :=
  ["Sun", "Moon", "Mercury", "Venus", "Mars", "Jupiter", "Saturn",
   "Uranus", "Neptune", "Pluto"]

/-- The twelve chart points (App.py line 64): the ten bodies followed by
the Ascendant (`const.ASC = "Asc"`) and Midheaven (`const.MC = "MC"`). -/
def POINTS : List String := PLANETS ++ ["Asc", "MC"]

/-- Python `str.capitalize()`: first character upper-cased, the rest
lower-cased (ASCII). -/
def pyCapitalize (s : String) : String :=
  match s.data with
  | [] => ""
  | c :: rest => ⟨c.toUpper :: rest.map Char.toLower⟩

/-- Per-point data as the flatlib chart object exposes it to
`summarize_points`: zodiac sign, ecliptic longitude within the sign, and
the house number when the ephemeris assigns one.  Modelled from the spec:
the ephemeris computation (`flatlib.chart.Chart`) is an external black-box
capability whose per-point output has exactly these fields; the claims
only concern how that output is enumerated and formatted. -/
structure PointData where
  sign : String
  signlon : ℚ
  house : Option Nat

/-- House annotation of a point line (App.py lines 129-132 of the embedded
program): `htxt = f" — House {hnum}" if hnum else ""`, where `hnum` is
Python-falsy when the house is absent or zero. -/
def houseSuffix (h : Option Nat) : String :=
  match h with
  | some n => if n ≠ 0 then " — House " ++ toString n else ""
  | none => ""

/-- One line of `summarize_points` (App.py lines 125-133 of the embedded
program). -/
def point_line (chart : String → PointData) (pid : String) : String :=
  "• *" ++ pyCapitalize pid ++ "*: " ++ pyCapitalize (chart pid).sign ++ " @ " ++
    fmt_deg (chart pid).signlon ++ houseSuffix (chart pid).house

/-- Embedding of `summarize_points` (App.py lines 123-134 of the embedded
program): one line per point of `POINTS`, in enumeration order. -/
def summarize_points (chart : String → PointData) : List String :=
  POINTS.map (point_line chart)

/-- C8: for every chart, `summarize_points` emits exactly 12 summaries, in
the fixed enumeration order Sun, Moon, Mercury, Venus, Mars, Jupiter,
Saturn, Uranus, Neptune, Pluto, Ascendant, Midheaven; each line carries
the point's name, sign and degree-within-sign; and when the ephemeris
assigns every body a house in 1..12 and no house to Ascendant/Midheaven,
the ten body lines carry a house suffix and the Ascendant/Midheaven lines
do not. -/
theorem summarize_points_fixed_order (chart : String → PointData)
    (hpl : ∀ p ∈ PLANETS, ∃ n, (chart p).house = some n ∧ 1 ≤ n ∧ n ≤ 12)
    (hasc : (chart "Asc").house = none) (hmc : (chart "MC").house = none) :
    (summarize_points chart).length = 12 ∧
    POINTS = ["Sun", "Moon", "Mercury", "Venus", "Mars", "Jupiter", "Saturn",
      "Uranus", "Neptune", "Pluto", "Asc", "MC"] ∧
    summarize_points chart = POINTS.map (point_line chart) ∧
    (∀ p ∈ PLANETS, ∃ n, 1 ≤ n ∧ n ≤ 12 ∧
       point_line chart p =
         "• *" ++ pyCapitalize p ++ "*: " ++ pyCapitalize (chart p).sign ++
           " @ " ++ fmt_deg (chart p).signlon ++ (" — House " ++ toString n)) ∧
    (∀ p, p = "Asc" ∨ p = "MC" →
       point_line chart p =
         "• *" ++ pyCapitalize p ++ "*: " ++ pyCapitalize (chart p).sign ++
           " @ " ++ fmt_deg (chart p).signlon) := by
  refine ⟨by simp [summarize_points, POINTS, PLANETS], by decide, rfl, ?_, ?_⟩
  · intro p hp
    obtain ⟨n, hn, h1, h12⟩ := hpl p hp
    refine ⟨n, h1, h12, ?_⟩
    unfold point_line
    rw [hn]
    simp only [houseSuffix]
    rw [if_pos (by omega)]
  · rintro p (rfl | rfl)
    · unfold point_line
      rw [hasc]
      simp [houseSuffix]
    · unfold point_line
      rw [hmc]
      simp [houseSuffix]

/-- Chart stub used to instantiate the C8 theorem: every body in house 1,
Ascendant and Midheaven houseless. -/
def chartStub : String → PointData := fun p =>
  if p = "Asc" ∨ p = "MC" then ⟨"Aries", 0, none⟩ else ⟨"Aries", 0, some 1⟩

/-- C8 theorem applied to a concrete chart stub. -/
theorem summarize_points_fixed_order_witness :
    (summarize_points chartStub).length = 12 ∧
    POINTS = ["Sun", "Moon", "Mercury", "Venus", "Mars", "Jupiter", "Saturn",
      "Uranus", "Neptune", "Pluto", "Asc", "MC"] ∧
    summarize_points chartStub = POINTS.map (point_line chartStub) ∧
    (∀ p ∈ PLANETS, ∃ n, 1 ≤ n ∧ n ≤ 12 ∧
       point_line chartStub p =
         "• *" ++ pyCapitalize p ++ "*: " ++ pyCapitalize (chartStub p).sign ++
           " @ " ++ fmt_deg (chartStub p).signlon ++ (" — House " ++ toString n)) ∧
    (∀ p, p = "Asc" ∨ p = "MC" →
       point_line chartStub p =
         "• *" ++ pyCapitalize p ++ "*: " ++ pyCapitalize (chartStub p).sign ++
           " @ " ++ fmt_deg (chartStub p).signlon) :=
  summarize_points_fixed_order chartStub
    (fun p hp => ⟨1, by
      have : p ≠ "Asc" ∧ p ≠ "MC" := by
        constructor <;> rintro rfl <;> revert hp <;> decide
      simp [chartStub, this.1, this.2], by omega, by omega⟩)
    (by simp [chartStub]) (by simp [chartStub])

/-- The five major aspect angles (App.py line 65); flatlib's aspect
constants `const.CONJUNCTION .. const.OPPOSITION` are the angles
themselves, in degrees. -/
def MAJOR_ASPECTS : List Nat := [0, 60, 90, 120, 180]

/-- Orb limit in degrees (App.py line 66). -/
def ASPECT_ORB : ℚ := 6

/-- Python-style floored modulus on rationals. -/
def floorMod (x m : ℚ) : ℚ := x - m * ⌊x / m⌋

/-- Angular separation of two ecliptic longitudes, reduced to `[0, 180]`. -/
def angularSep (a b : ℚ) : ℚ :=
  let d := floorMod (a - b) 360
  if d ≤ 180 then d else 360 - d

/-- Major aspect angle nearest to a separation (first wins on a tie). -/
def nearestMajor (sep : ℚ) : Nat :=
  MAJOR_ASPECTS.foldl
    (fun (best : Nat) (a : Nat) =>
      if |sep - (a : ℚ)| < |sep - (best : ℚ)| then a else best) 0

/-- Aspect between two bodies at the given ecliptic longitudes: the
nearest major angle as the aspect type and the signed deviation from it as
the orb.  Modelled from the spec: `flatlib.aspects.getAspect` is part of
the external ephemeris capability; the spec's contract for it is
"compute the angular separation; match it against the nearest of the 5
major aspect angles; the deviation is the orb". -/
def getAspect (lonA lonB : ℚ) : Nat × ℚ :=
  let sep := angularSep lonA lonB
  let typ := nearestMajor sep
  (typ, sep - typ)

/-- Rounding to two decimals, as the Python format `:.2f` displays the
orb (floats are modelled as exact rationals; the claims' boundary values
are not half-way cases, so the float tie-breaking rule is immaterial). -/
def round2 (q : ℚ) : ℚ := round (q * 100) / 100

/-- One emitted aspect summary of `summarize_aspects` (App.py line 143 of
the embedded program): the two body identifiers in pair order, the aspect
type and the absolute orb rounded to two decimals. -/
structure AspectEntry where
  bodyA : String
  typ : Nat
  bodyB : String
  orb : ℚ
deriving DecidableEq, Repr

/-- The body pairs visited by the nested loops
`for i in range(len(pts)): for j in range(i+1, len(pts))` of
`summarize_aspects`, in visiting order. -/
def bodyPairs : List (String × String) :=
  (List.range PLANETS.length).flatMap fun i =>
    ((List.range PLANETS.length).drop (i + 1)).map fun j =>
      (PLANETS.getD i "", PLANETS.getD j "")

/-- Emission decision for one pair (App.py lines 141-143 of the embedded
program): emit iff the aspect type is major and its absolute orb is at
most `ASPECT_ORB`. -/
def emitAspect (chart : String → ℚ) (p : String × String) : Option AspectEntry :=
  let asp := getAspect (chart p.1) (chart p.2)
  if asp.1 ∈ MAJOR_ASPECTS ∧ |asp.2| ≤ ASPECT_ORB then
    some ⟨p.1, asp.1, p.2, round2 |asp.2|⟩
  else none

/-- Embedding of `summarize_aspects` (App.py lines 136-144 of the embedded
program): filter the in-order pair enumeration through the emission
decision, preserving the enumeration order. -/
def summarize_aspects (chart : String → ℚ) : List AspectEntry :=
  bodyPairs.filterMap (emitAspect chart)

/-- Two-body chart placing the Sun at longitude 0 and the Moon at
longitude `x`, with all remaining bodies at 0 as well. -/
def twoBodyChart (x : ℚ) : String → ℚ := fun b => if b = "Moon" then x else 0

/-- C1: `summarize_aspects` visits exactly the 45 unordered `i < j` pairs
of the ten-body list (no duplicates, every pair of distinct bodies in
index order), emits entries by filtering that in-order enumeration, emits
a pair only if the absolute orb against the nearest major aspect angle is
at most 6 degrees with the orb reported rounded to two decimals, and at
the spec's boundary inputs: an exact 90° separation emits a square with
orb 0.00, a 96° separation (orb exactly 6.00) is included, and a 97°
separation (orb 7.00) is excluded. -/
theorem summarize_aspects_spec :
    bodyPairs.length = 45 ∧
    bodyPairs.Nodup ∧
    (∀ p ∈ bodyPairs, p.1 ∈ PLANETS ∧ p.2 ∈ PLANETS ∧ p.1 ≠ p.2) ∧
    (∀ i j : Fin PLANETS.length, i < j →
       (PLANETS.get i, PLANETS.get j) ∈ bodyPairs) ∧
    (∀ chart, summarize_aspects chart = bodyPairs.filterMap (emitAspect chart)) ∧
    (∀ chart e, e ∈ summarize_aspects chart →
       e.typ ∈ MAJOR_ASPECTS ∧
       |(getAspect (chart e.bodyA) (chart e.bodyB)).2| ≤ ASPECT_ORB ∧
       e.typ = (getAspect (chart e.bodyA) (chart e.bodyB)).1 ∧
       e.orb = round2 |(getAspect (chart e.bodyA) (chart e.bodyB)).2|) ∧
    emitAspect (twoBodyChart 90) ("Sun", "Moon") = some ⟨"Sun", 90, "Moon", 0⟩ ∧
    emitAspect (twoBodyChart 96) ("Sun", "Moon") = some ⟨"Sun", 90, "Moon", 6⟩ ∧
    emitAspect (twoBodyChart 97) ("Sun", "Moon") = none := by
  refine ⟨by decide, by decide, by decide, by decide, fun _ => rfl, ?_, ?_, ?_, ?_⟩
  · intro chart e he
    rw [summarize_aspects, List.mem_filterMap] at he
    obtain ⟨p, hp, hemit⟩ := he
    simp only [emitAspect] at hemit
    split at hemit
    · rename_i hcond
      cases hemit
      exact ⟨hcond.1, hcond.2, rfl, rfl⟩
    · cases hemit
  · have h1 : angularSep 0 90 = 90 := by
      norm_num [angularSep, floorMod, Int.floor_eq_iff]
    have h2 : nearestMajor 90 = 90 := by norm_num [nearestMajor, MAJOR_ASPECTS]
    simp only [emitAspect, getAspect, show twoBodyChart 90 "Sun" = 0 from rfl,
      show twoBodyChart 90 "Moon" = 90 from rfl, h1, h2]
    norm_num [MAJOR_ASPECTS, ASPECT_ORB, round2, round_eq, Int.floor_eq_iff]
  · have h1 : angularSep 0 96 = 96 := by
      norm_num [angularSep, floorMod, Int.floor_eq_iff]
    have h2 : nearestMajor 96 = 90 := by norm_num [nearestMajor, MAJOR_ASPECTS]
    simp only [emitAspect, getAspect, show twoBodyChart 96 "Sun" = 0 from rfl,
      show twoBodyChart 96 "Moon" = 96 from rfl, h1, h2]
    norm_num [MAJOR_ASPECTS, ASPECT_ORB, round2, round_eq, Int.floor_eq_iff]
  · have h1 : angularSep 0 97 = 97 := by
      norm_num [angularSep, floorMod, Int.floor_eq_iff]
    have h2 : nearestMajor 97 = 90 := by norm_num [nearestMajor, MAJOR_ASPECTS]
    simp only [emitAspect, getAspect, show twoBodyChart 97 "Sun" = 0 from rfl,
      show twoBodyChart 97 "Moon" = 97 from rfl, h1, h2]
    norm_num [MAJOR_ASPECTS, ASPECT_ORB]

/-- Pair-enumeration conjunct of the C1 theorem applied at the concrete
indices 0 < 1, i.e. the Sun-Moon pair. -/
theorem summarize_aspects_spec_witness :
    (PLANETS.get ⟨0, by decide⟩, PLANETS.get ⟨1, by decide⟩) ∈ bodyPairs :=
  summarize_aspects_spec.2.2.2.1 ⟨0, by decide⟩ ⟨1, by decide⟩ (by decide)

/-- Location record of a successful geocoder match. -/
structure GeoLoc where
  latitude : ℚ
  longitude : ℚ
  address : String

/-- Outcome of one geopy `geocode` call.  Modelled from the spec: the
geocoding provider is external; its contract is a best-match record or
no-match, with a bounded timeout, and geopy surfaces network failures and
timeouts as raised exceptions (`GeocoderTimedOut` and friends), carried
here by name. -/
inductive GeoOutcome where
  | found : GeoLoc → GeoOutcome
  | nomatch : GeoOutcome
  | netfail : String → GeoOutcome

/-- External providers used by `geocode_place`.  Modelled from the spec:
the geocoder and the two timezonefinder lookups (polygon containment and
nearest-zone fallback) are black-box capabilities. -/
structure Providers where
  geocode : String → GeoOutcome
  timezone_at : ℚ → ℚ → Option String
  closest_timezone_at : ℚ → ℚ → Option String

/-- Process-wide place cache `geo_cache` (App.py line 70 of the embedded
program), a Python dict modelled as an association list with insertion at
the front (first match wins on lookup, matching dict-overwrite
semantics). -/
abbrev GeoCache : Type := List (String × (ℚ × ℚ × String × String))

/-- Normalised cache key: `place.lower().strip()` (App.py line 93). -/
def normKey (place : String) : String := pyStrip (pyLower place)

/-- Python truthiness of an optional string: `None` and `""` are falsy. -/
def truthyStr : Option String → Bool
  | none => false
  | some s => !s.isEmpty

/-- Python `a or b` on optional strings: `a` if truthy, else `b`
(App.py line 100: `tf.timezone_at(...) or tf.closest_timezone_at(...)`). -/
def pyOrStr (a b : Option String) : Option String :=
  if truthyStr a then a else b

/-- Number of external calls performed on the path through the time-zone
lookups: the geocoder call plus `timezone_at`, plus `closest_timezone_at`
when the first lookup is falsy. -/
def tzCalls (P : Providers) (loc : GeoLoc) : Nat :=
  if truthyStr (P.timezone_at loc.latitude loc.longitude) then 2 else 3

/-- Embedding of `geocode_place` (App.py lines 92-104 of the embedded
program).  The `.ok` payload is (returned value, cache after the call,
number of external provider calls performed).  A geopy exception raised by
the geocoder propagates to the caller as `.error`: the source wraps the
call in no `try`/`except`. -/
def geocode_place (P : Providers) (place : String) (cache : GeoCache) :
    Except String (Option (ℚ × ℚ × String × String) × GeoCache × Nat) :=
  match List.lookup (normKey place) cache with
  | some v => .ok (some v, cache, 0)
  | none =>
    match P.geocode place with
    | .netfail e => .error e
    | .nomatch => .ok (none, cache, 1)
    | .found loc =>
      match pyOrStr (P.timezone_at loc.latitude loc.longitude)
                    (P.closest_timezone_at loc.latitude loc.longitude) with
      | some tz =>
          if tz = "" then .ok (none, cache, tzCalls P loc)
          else
            .ok (some (loc.latitude, loc.longitude, loc.address, tz),
                 (normKey place, (loc.latitude, loc.longitude, loc.address, tz)) :: cache,
                 tzCalls P loc)
      | none => .ok (none, cache, tzCalls P loc)

/-- Provider stub whose geocoder raises a timeout for every query. -/
def timeoutProviders : Providers :=
  ⟨fun _ => .netfail "GeocoderTimedOut", fun _ _ => none, fun _ _ => none⟩

/-- C2 counterexample: with a geocoder that times out, `geocode_place`
does not return the no-resolution value; the geopy exception propagates
to the caller (the source catches nothing around the call). -/
theorem geocode_place_timeout_raises :
    geocode_place timeoutProviders "Paris, France" [] = .error "GeocoderTimedOut" := rfl

/-- C2 (amended): for an uncached place, `geocode_place` returns the
explicit no-resolution value `None` when the geocoder reports no match or
when no truthy time zone is found for the coordinates, but when the
geocoder fails with a network error or timeout the geopy exception
propagates to the caller uncaught — the claim's "never raises" holds only
for the no-match paths, not for provider faults. -/
theorem geocode_place_failure_modes (P : Providers) (place : String) (cache : GeoCache)
    (hmiss : List.lookup (normKey place) cache = none) :
    (P.geocode place = .nomatch →
       geocode_place P place cache = .ok (none, cache, 1)) ∧
    (∀ e, P.geocode place = .netfail e →
       geocode_place P place cache = .error e) ∧
    (∀ loc, P.geocode place = .found loc →
       truthyStr (pyOrStr (P.timezone_at loc.latitude loc.longitude)
                          (P.closest_timezone_at loc.latitude loc.longitude)) = false →
       geocode_place P place cache = .ok (none, cache, tzCalls P loc)) := by
  refine ⟨?_, ?_, ?_⟩
  · intro h
    unfold geocode_place
    rw [hmiss, h]
  · intro e h
    unfold geocode_place
    rw [hmiss, h]
  · intro loc h htz
    unfold geocode_place
    rw [hmiss, h]
    rcases ht : pyOrStr (P.timezone_at loc.latitude loc.longitude)
        (P.closest_timezone_at loc.latitude loc.longitude) with _ | tz
    · simp only [ht]
    · rw [ht] at htz
      have hz : tz = "" := by simpa [truthyStr, String.isEmpty_iff] using htz
      subst hz
      simp only [ht]
      simp

/-- Lookup after inserting the looked-up key at the front. -/
theorem lookup_cons_self {α β : Type} [BEq α] [LawfulBEq α] (a : α) (b : β)
    (l : List (α × β)) : List.lookup a ((a, b) :: l) = some b := by
  simp [List.lookup]

/-- C5: resolution is idempotent per normalised key within a process
lifetime: if a call on text `t1` succeeds with tuple `res` and cache `c2`,
then a call on any text `t2` with the same lower-cased, trimmed key
returns the identical tuple from the cache, leaves the cache unchanged,
and performs no external geocoding or time-zone call. -/
theorem geocode_place_idempotent (P : Providers) (t1 t2 : String) (c c2 : GeoCache)
    (res : ℚ × ℚ × String × String) (n : Nat)
    (hkey : normKey t1 = normKey t2)
    (h1 : geocode_place P t1 c = .ok (some res, c2, n)) :
    geocode_place P t2 c2 = .ok (some res, c2, 0) := by
  have hstep : List.lookup (normKey t1) c2 = some res := by
    unfold geocode_place at h1
    rcases hL : List.lookup (normKey t1) c with _ | v <;> rw [hL] at h1
    · rcases hG : P.geocode t1 with loc | _ | e <;> rw [hG] at h1
      · rcases ht : pyOrStr (P.timezone_at loc.latitude loc.longitude)
            (P.closest_timezone_at loc.latitude loc.longitude) with _ | tz <;>
          simp only [ht] at h1
        · exact absurd h1 (by simp)
        · split at h1
          · exact absurd h1 (by simp)
          · simp only [Except.ok.injEq, Prod.mk.injEq, Option.some.injEq] at h1
            obtain ⟨hv, hc, hn⟩ := h1
            rw [← hc, ← hv]
            exact lookup_cons_self _ _ _
      · exact absurd h1 (by simp)
      · exact absurd h1 (by simp)
    · simp only [Except.ok.injEq, Prod.mk.injEq, Option.some.injEq] at h1
      obtain ⟨hv, hc, hn⟩ := h1
      rw [← hc, ← hv]
      exact hL
  unfold geocode_place
  rw [← hkey, hstep]

/-- C10: the cache is left unchanged whenever resolution returns the
no-resolution value, and an entry (under the normalised key) is inserted
only together with a successful result: a successful call either hit the
existing cache unchanged or returns with exactly the new entry pushed. -/
theorem geocode_place_cache_discipline (P : Providers) (place : String)
    (cache c2 : GeoCache) (n : Nat) :
    (geocode_place P place cache = .ok (none, c2, n) → c2 = cache) ∧
    (∀ res, geocode_place P place cache = .ok (some res, c2, n) →
       (c2 = cache ∧ List.lookup (normKey place) cache = some res) ∨
       c2 = (normKey place, res) :: cache) := by
  constructor
  · intro h
    unfold geocode_place at h
    rcases hL : List.lookup (normKey place) cache with _ | v <;> rw [hL] at h
    · rcases hG : P.geocode place with loc | _ | e <;> rw [hG] at h
      · rcases ht : pyOrStr (P.timezone_at loc.latitude loc.longitude)
            (P.closest_timezone_at loc.latitude loc.longitude) with _ | tz <;>
          simp only [ht] at h
        · simp only [Except.ok.injEq, Prod.mk.injEq] at h
          exact h.2.1.symm
        · split at h
          · simp only [Except.ok.injEq, Prod.mk.injEq] at h
            exact h.2.1.symm
          · exact absurd h (by simp)
      · simp only [Except.ok.injEq, Prod.mk.injEq] at h
        exact h.2.1.symm
      · exact absurd h (by simp)
    · exact absurd h (by simp)
  · intro res h
    unfold geocode_place at h
    rcases hL : List.lookup (normKey place) cache with _ | v <;> rw [hL] at h
    · rcases hG : P.geocode place with loc | _ | e <;> rw [hG] at h
      · rcases ht : pyOrStr (P.timezone_at loc.latitude loc.longitude)
            (P.closest_timezone_at loc.latitude loc.longitude) with _ | tz <;>
          simp only [ht] at h
        · exact absurd h (by simp)
        · split at h
          · exact absurd h (by simp)
          · simp only [Except.ok.injEq, Prod.mk.injEq, Option.some.injEq] at h
            obtain ⟨hv, hc, hn⟩ := h
            right
            rw [← hc, hv]
      · exact absurd h (by simp)
      · exact absurd h (by simp)
    · simp only [Except.ok.injEq, Prod.mk.injEq, Option.some.injEq] at h
      obtain ⟨hv, hc, hn⟩ := h
      left
      refine ⟨hc.symm, ?_⟩
      rw [← hv]

/-- Provider stub whose geocoder finds no match for any query. -/
def nomatchProviders : Providers :=
  ⟨fun _ => .nomatch, fun _ _ => none, fun _ _ => none⟩

/-- First conjunct of the C2 theorem applied at a concrete no-match
provider, empty cache and place text. -/
theorem geocode_place_failure_modes_witness :
    geocode_place nomatchProviders "Nowhere" [] = .ok (none, [], 1) :=
  (geocode_place_failure_modes nomatchProviders "Nowhere" [] rfl).1 rfl

/-- Location stub for the resolver witnesses. -/
def parisLoc : GeoLoc := ⟨48, 2, "Paris, France"⟩

/-- Provider stub resolving every query to `parisLoc` in zone
`Europe/Paris`. -/
def parisProviders : Providers :=
  ⟨fun _ => .found parisLoc, fun _ _ => some "Europe/Paris", fun _ _ => none⟩

/-- Resolved tuple produced by `parisProviders`. -/
def parisTuple : ℚ × ℚ × String × String := (48, 2, "Paris, France", "Europe/Paris")

/-- C5 theorem applied at the spec's concrete pair of texts
`"  Paris, France  "` and `"paris, france"`: after the first successful
resolution on the empty cache, the second call returns the identical
tuple from the unchanged cache with zero external calls. -/
theorem geocode_place_idempotent_witness :
    geocode_place parisProviders "paris, france"
        [(normKey "  Paris, France  ", parisTuple)] =
      .ok (some parisTuple, [(normKey "  Paris, France  ", parisTuple)], 0) :=
  geocode_place_idempotent parisProviders "  Paris, France  " "paris, france" []
    [(normKey "  Paris, France  ", parisTuple)] parisTuple 2 rfl rfl

/-- Second conjunct of the C10 theorem applied at a concrete successful
resolution: the post-call cache is exactly the pre-call cache with the new
entry pushed. -/
theorem geocode_place_cache_discipline_witness :
    (([(normKey "  Paris, France  ", parisTuple)] : GeoCache) = [] ∧
       List.lookup (normKey "  Paris, France  ") ([] : GeoCache) = some parisTuple) ∨
    ([(normKey "  Paris, France  ", parisTuple)] : GeoCache) =
      (normKey "  Paris, France  ", parisTuple) :: [] :=
  (geocode_place_cache_discipline parisProviders "  Paris, France  " []
      [(normKey "  Paris, France  ", parisTuple)] 2).2 parisTuple rfl

/-- Zero-padded 2-digit rendering of a natural number. -/
def pad2N (n : Nat) : String :=
  if n < 10 then "0" ++ toString n else toString n

/-- Zero-padded 4-digit rendering of a year, as `strftime`'s `%Y` renders
the `datetime` year range 1..9999: the four decimal digits in order. -/
def pad4 (n : Nat) : String :=
  toString (n / 1000 % 10) ++ toString (n / 100 % 10) ++
    toString (n / 10 % 10) ++ toString (n % 10)

/-- Validity of a civil date in Python's `datetime` calendar. -/
def ValidDate (y m d : Nat) : Prop :=
  1 ≤ y ∧ 1 ≤ m ∧ m ≤ 12 ∧ 1 ≤ d ∧ d ≤ daysInMonth y m

/-- Calendar successor of a civil date. -/
def nextDay (y m d : Nat) : Nat × Nat × Nat :=
  if d < daysInMonth y m then (y, m, d + 1)
  else if m < 12 then (y, m + 1, 1)
  else (y + 1, 1, 1)

/-- Calendar predecessor of a civil date. -/
def prevDay (y m d : Nat) : Nat × Nat × Nat :=
  if 1 < d then (y, m, d - 1)
  else if 1 < m then (y, m - 1, daysInMonth y (m - 1))
  else (y - 1, 12, 31)

/-- Day number of a civil date in the proleptic Gregorian calendar,
counted from 0000-03-01 (the standard days-from-civil computation, here on
naturals since `datetime` years start at 1).  This is the reference
linearisation against which the UTC conversion is verified. -/
def daysFromCivil (y m d : Nat) : Nat :=
  let yAdj := y - (if m ≤ 2 then 1 else 0)
  let era := yAdj / 400
  let yoe := yAdj % 400
  let mp := (m + 9) % 12
  let doy := (153 * mp + 2) / 5 + d - 1
  era * 146097 + yoe * 365 + yoe / 4 - yoe / 100 + doy

/-- Civil fields of the UTC instant lying `off` minutes before wall-clock
`hour:minute` on the given local date: at most one calendar-day borrow or
carry, which covers every real zone offset (all are within a day).
Modelled from the spec: the pytz zone-rules provider is abstracted as the
zone's UTC offset in minutes in effect at the naive local timestamp. -/
def utcFields (dt : PyDate) (hour minute : Nat) (off : Int) :
    (Nat × Nat × Nat) × Nat × Nat :=
  let t : Int := hour * 60 + minute - off
  if t < 0 then
    let t2 := (t + 1440).toNat
    (prevDay dt.year dt.month dt.day, t2 / 60, t2 % 60)
  else if t < 1440 then
    ((dt.year, dt.month, dt.day), t.toNat / 60, t.toNat % 60)
  else
    let t2 := (t - 1440).toNat
    (nextDay dt.year dt.month dt.day, t2 / 60, t2 % 60)

/-- Embedding of `to_utc_iso` (App.py lines 106-110 of the embedded
program): build the naive local timestamp from date, hour and minute,
shift it to UTC by the zone offset in effect there (`localize` then
`astimezone(pytz.utc)`), and render `strftime("%Y-%m-%dT%H:%M:%SZ")` —
seconds are always `00` because the naive timestamp carries only hour and
minute. -/
def to_utc_iso (dt : PyDate) (hour minute : Nat) (off : Int) : String :=
  let f := utcFields dt hour minute off
  pad4 f.1.1 ++ "-" ++ pad2N f.1.2.1 ++ "-" ++ pad2N f.1.2.2 ++ "T" ++
    pad2N f.2.1 ++ ":" ++ pad2N f.2.2 ++ ":00Z"

theorem isLeapYear_iff (y : Nat) :
    isLeapYear y = true ↔ (y % 4 = 0 ∧ (y % 100 ≠ 0 ∨ y % 400 = 0)) := by
  simp [isLeapYear, Bool.and_eq_true, Bool.or_eq_true, decide_eq_true_eq, bne_iff_ne]

theorem daysInMonth_eq (y m : Nat) :
    daysInMonth y m =
      if m = 2 then (if y % 4 = 0 ∧ (y % 100 ≠ 0 ∨ y % 400 = 0) then 29 else 28)
      else if m = 4 ∨ m = 6 ∨ m = 9 ∨ m = 11 then 30 else 31 := by
  by_cases hL : y % 4 = 0 ∧ (y % 100 ≠ 0 ∨ y % 400 = 0)
  · have hB : isLeapYear y = true := (isLeapYear_iff y).mpr hL
    simp [daysInMonth, hB, hL]
  · have hB : isLeapYear y = false := by
      rcases hB : isLeapYear y with _ | _
      · rfl
      · exact absurd ((isLeapYear_iff y).mp hB) hL
    simp [daysInMonth, hB, hL]

theorem daysInMonth_pos (y m : Nat) : 1 ≤ daysInMonth y m := by
  rw [daysInMonth_eq]
  split_ifs <;> omega

theorem daysInMonth_le_31 (y m : Nat) : daysInMonth y m ≤ 31 := by
  rw [daysInMonth_eq]
  split_ifs <;> omega

set_option maxHeartbeats 1000000 in
theorem daysFromCivil_nextDay (y m d y2 m2 d2 : Nat)
    (hy : 1 ≤ y) (hm1 : 1 ≤ m) (hm2 : m ≤ 12) (hd1 : 1 ≤ d)
    (hd2 : d ≤ daysInMonth y m) (hnext : nextDay y m d = (y2, m2, d2)) :
    daysFromCivil y2 m2 d2 = daysFromCivil y m d + 1 := by
  rw [daysInMonth_eq] at hd2
  rw [nextDay, daysInMonth_eq] at hnext
  interval_cases m <;>
    split_ifs at hnext hd2 <;>
    cases hnext <;>
    simp only [daysFromCivil] <;>
    split_ifs <;>
    omega

theorem nextDay_valid (y m d y2 m2 d2 : Nat)
    (hy : 1 ≤ y) (hm1 : 1 ≤ m) (hm2 : m ≤ 12) (hd1 : 1 ≤ d)
    (hd2 : d ≤ daysInMonth y m) (hnext : nextDay y m d = (y2, m2, d2)) :
    1 ≤ y2 ∧ y2 ≤ y + 1 ∧ 1 ≤ m2 ∧ m2 ≤ 12 ∧ 1 ≤ d2 ∧ d2 ≤ daysInMonth y2 m2 := by
  rw [nextDay] at hnext
  split_ifs at hnext with h1 h2 <;> cases hnext
  · exact ⟨hy, by omega, hm1, hm2, by omega, h1⟩
  · exact ⟨hy, by omega, by omega, by omega, le_refl 1, daysInMonth_pos y (m + 1)⟩
  · exact ⟨by omega, by omega, by omega, by omega, le_refl 1, daysInMonth_pos (y + 1) 1⟩

theorem prevDay_valid (y m d y2 m2 d2 : Nat)
    (hy : 2 ≤ y) (hm1 : 1 ≤ m) (hm2 : m ≤ 12) (hd1 : 1 ≤ d)
    (hd2 : d ≤ daysInMonth y m) (hprev : prevDay y m d = (y2, m2, d2)) :
    1 ≤ y2 ∧ y2 ≤ y ∧ y ≤ y2 + 1 ∧ 1 ≤ m2 ∧ m2 ≤ 12 ∧ 1 ≤ d2 ∧
      d2 ≤ daysInMonth y2 m2 := by
  rw [prevDay] at hprev
  split_ifs at hprev with h1 h2 <;> cases hprev
  · exact ⟨by omega, le_refl _, by omega, hm1, hm2, by omega, by omega⟩
  · exact ⟨by omega, le_refl _, by omega, by omega, by omega,
      daysInMonth_pos y (m - 1), le_refl _⟩
  · refine ⟨by omega, by omega, by omega, by omega, by omega, by omega, ?_⟩
    rw [daysInMonth_eq]
    norm_num

theorem prevDay_nextDay (y m d y2 m2 d2 : Nat)
    (hy : 2 ≤ y) (hm1 : 1 ≤ m) (hm2 : m ≤ 12) (hd1 : 1 ≤ d)
    (hd2 : d ≤ daysInMonth y m) (hprev : prevDay y m d = (y2, m2, d2)) :
    nextDay y2 m2 d2 = (y, m, d) := by
  rw [prevDay] at hprev
  split_ifs at hprev with h1 h2 <;> cases hprev <;> rw [nextDay]
  · rw [if_pos (by omega)]
    have hd : d - 1 + 1 = d := by omega
    rw [hd]
  · rw [if_neg (lt_irrefl _), if_pos (by omega)]
    have hmeq : m - 1 + 1 = m := by omega
    have hdeq : d = 1 := by omega
    rw [hmeq, hdeq]
  · have hdim : daysInMonth (y - 1) 12 = 31 := by
      rw [daysInMonth_eq]
      norm_num
    rw [hdim, if_neg (lt_irrefl _), if_neg (by omega)]
    have hyeq : y - 1 + 1 = y := by omega
    have hmeq : m = 1 := by omega
    have hdeq : d = 1 := by omega
    rw [hyeq, hmeq, hdeq]

theorem daysFromCivil_prevDay (y m d y2 m2 d2 : Nat)
    (hy : 2 ≤ y) (hm1 : 1 ≤ m) (hm2 : m ≤ 12) (hd1 : 1 ≤ d)
    (hd2 : d ≤ daysInMonth y m) (hprev : prevDay y m d = (y2, m2, d2)) :
    daysFromCivil y2 m2 d2 + 1 = daysFromCivil y m d := by
  obtain ⟨hv1, hv1b, hv2, hv3, hv4, hv5, hv6⟩ :=
    prevDay_valid y m d y2 m2 d2 hy hm1 hm2 hd1 hd2 hprev
  have hnd := prevDay_nextDay y m d y2 m2 d2 hy hm1 hm2 hd1 hd2 hprev
  have := daysFromCivil_nextDay y2 m2 d2 y m d hv1 hv3 hv4 hv5 hv6 hnd
  omega

theorem toString_digit_len {k : Nat} (h : k < 10) : (toString k).length = 1 := by
  interval_cases k <;> decide

theorem pad4_len (n : Nat) : (pad4 n).length = 4 := by
  rw [pad4, String.length_append, String.length_append, String.length_append,
    toString_digit_len (Nat.mod_lt _ (by norm_num)),
    toString_digit_len (Nat.mod_lt _ (by norm_num)),
    toString_digit_len (Nat.mod_lt _ (by norm_num)),
    toString_digit_len (Nat.mod_lt _ (by norm_num))]

theorem pad2N_len {n : Nat} (h : n ≤ 99) : (pad2N n).length = 2 := by
  interval_cases n <;> decide

set_option maxHeartbeats 1000000 in
/-- C6: `to_utc_iso` builds the naive local timestamp from date, hour and
minute, shifts it by the zone offset in effect there (the pytz rules
provider, modelled from the spec as the offset in minutes), and renders
the result as `YYYY-MM-DDTHH:MM:SSZ`: the rendered UTC civil fields are a
valid calendar date-time denoting exactly the local instant minus the
offset (measured in minutes on the standard days-from-civil
linearisation), each two-digit field is zero-padded to width 2 and the
year to width 4, and a fixed offset of UTC+2 converts local 14:35 on
1998-09-07 to `1998-09-07T12:35:00Z`. -/
theorem to_utc_iso_correct (dt : PyDate) (hour minute : Nat) (off : Int)
    (hy1 : 2 ≤ dt.year) (hy2 : dt.year ≤ 9998)
    (hm1 : 1 ≤ dt.month) (hm2 : dt.month ≤ 12)
    (hd1 : 1 ≤ dt.day) (hd2 : dt.day ≤ daysInMonth dt.year dt.month)
    (hh : hour ≤ 23) (hmin : minute ≤ 59) (hoff : off.natAbs ≤ 1440) :
    (∃ y2 m2 d2 h2 min2,
      utcFields dt hour minute off = ((y2, m2, d2), h2, min2) ∧
      (1 ≤ y2 ∧ y2 ≤ 9999 ∧ 1 ≤ m2 ∧ m2 ≤ 12 ∧ 1 ≤ d2 ∧ d2 ≤ daysInMonth y2 m2 ∧
       h2 ≤ 23 ∧ min2 ≤ 59) ∧
      ((daysFromCivil y2 m2 d2 : Int) * 1440 + h2 * 60 + min2 =
        (daysFromCivil dt.year dt.month dt.day : Int) * 1440 + hour * 60 + minute - off) ∧
      to_utc_iso dt hour minute off =
        pad4 y2 ++ "-" ++ pad2N m2 ++ "-" ++ pad2N d2 ++ "T" ++
          pad2N h2 ++ ":" ++ pad2N min2 ++ ":00Z" ∧
      (pad4 y2).length = 4 ∧ (pad2N m2).length = 2 ∧ (pad2N d2).length = 2 ∧
      (pad2N h2).length = 2 ∧ (pad2N min2).length = 2) ∧
    to_utc_iso ⟨1998, 9, 7⟩ 14 35 120 = "1998-09-07T12:35:00Z" := by
  refine ⟨?_, by decide⟩
  by_cases ht1 : (hour : Int) * 60 + (minute : Int) - off < 0
  · rcases hp : prevDay dt.year dt.month dt.day with ⟨py, pm, pd⟩
    have hsp : utcFields dt hour minute off =
        ((py, pm, pd), (((hour : Int) * 60 + (minute : Int) - off + 1440).toNat) / 60,
          (((hour : Int) * 60 + (minute : Int) - off + 1440).toNat) % 60) := by
      simp only [utcFields]
      rw [if_pos ht1, hp]
    obtain ⟨hv1, hv1b, hv2, hv3, hv4, hv5, hv6⟩ :=
      prevDay_valid _ _ _ py pm pd hy1 hm1 hm2 hd1 hd2 hp
    have hdfc := daysFromCivil_prevDay _ _ _ py pm pd hy1 hm1 hm2 hd1 hd2 hp
    have h31 := daysInMonth_le_31 py pm
    refine ⟨py, pm, pd, _, _, hsp,
      ⟨hv1, by omega, hv3, hv4, hv5, hv6, by omega, by omega⟩, by omega, ?_,
      pad4_len py, pad2N_len (by omega), pad2N_len (by omega),
      pad2N_len (by omega), pad2N_len (by omega)⟩
    simp only [to_utc_iso, hsp]
  · by_cases ht2 : (hour : Int) * 60 + (minute : Int) - off < 1440
    · have hsp : utcFields dt hour minute off =
          ((dt.year, dt.month, dt.day), (((hour : Int) * 60 + (minute : Int) - off).toNat) / 60,
            (((hour : Int) * 60 + (minute : Int) - off).toNat) % 60) := by
        simp only [utcFields]
        rw [if_neg ht1, if_pos ht2]
      have h31 := daysInMonth_le_31 dt.year dt.month
      refine ⟨dt.year, dt.month, dt.day, _, _, hsp,
        ⟨by omega, by omega, hm1, hm2, hd1, hd2, by omega, by omega⟩, by omega, ?_,
        pad4_len dt.year, pad2N_len (by omega), pad2N_len (by omega),
        pad2N_len (by omega), pad2N_len (by omega)⟩
      simp only [to_utc_iso, hsp]
    · rcases hp : nextDay dt.year dt.month dt.day with ⟨py, pm, pd⟩
      have hsp : utcFields dt hour minute off =
          ((py, pm, pd), (((hour : Int) * 60 + (minute : Int) - off - 1440).toNat) / 60,
            (((hour : Int) * 60 + (minute : Int) - off - 1440).toNat) % 60) := by
        simp only [utcFields]
        rw [if_neg ht1, if_neg ht2, hp]
      obtain ⟨hv1, hv2, hv3, hv4, hv5, hv6⟩ :=
        nextDay_valid _ _ _ py pm pd (by omega) hm1 hm2 hd1 hd2 hp
      have hdfc := daysFromCivil_nextDay _ _ _ py pm pd (by omega) hm1 hm2 hd1 hd2 hp
      have h31 := daysInMonth_le_31 py pm
      refine ⟨py, pm, pd, _, _, hsp,
        ⟨hv1, by omega, hv3, hv4, hv5, hv6, by omega, by omega⟩, by omega, ?_,
        pad4_len py, pad2N_len (by omega), pad2N_len (by omega),
        pad2N_len (by omega), pad2N_len (by omega)⟩
      simp only [to_utc_iso, hsp]

/-- C6 theorem applied at the spec's concrete input: 14:35 local on
1998-09-07 under a fixed UTC+2 offset. -/
theorem to_utc_iso_correct_witness :
    to_utc_iso ⟨1998, 9, 7⟩ 14 35 120 = "1998-09-07T12:35:00Z" :=
  (to_utc_iso_correct ⟨1998, 9, 7⟩ 14 35 120 (by norm_num) (by norm_num)
    (by norm_num) (by norm_num) (by norm_num) (by decide)
    (by norm_num) (by norm_num) (by decide)).2
